import Mathlib

/-!
Verification development for the AI Model Platform backend: a shallow
embedding of the document store, the record documents, and the HTTP
handlers in `main.py`, together with proofs of the testable properties.

The document store adapter (`database.py`) is not part of the sources;
its operations are modelled from the specification (section 4.1): it
owns a process-wide connection, `create_document` serializes the fields
of a record, inserts them under a fresh identifier and returns that
identifier as a string, `get_documents` returns up to `limit` records,
and every dependent operation fails with an explicit "not configured"
condition when the connection is unavailable.
-/

namespace AIPlatform

/-- A BSON-like field value as stored in a document. `vOid` is a stored
ObjectId, carried as its 24-character hexadecimal string form. -/
inductive Value where
  | vStr : String → Value
  | vOid : String → Value
  | vNull : Value
  | vList : List Value → Value
  | vDict : List (String × Value) → Value
deriving Repr

/-- A document: an ordered field map, as a Python dict with string keys. -/
abbrev Doc := List (String × Value)

/-- Field lookup in a document (Python `doc[k]` / `doc.get(k)`). -/
def getField (k : String) : Doc → Option Value
  | [] => none
  | (k₁, v) :: d => if k₁ = k then some v else getField k d

/-- Field assignment (`doc[k] = v`): replaces the value in place when the
key is present, appends the pair at the end otherwise. -/
def setField (k : String) (v : Value) : Doc → Doc
  | [] => [(k, v)]
  | (k₁, v₁) :: d => if k₁ = k then (k₁, v) :: d else (k₁, v₁) :: setField k v d

/-- Field removal (`doc.pop(k)` for the key part). -/
def removeField (k : String) (d : Doc) : Doc :=
  d.filter (fun p => decide (p.1 ≠ k))

/-- Python `str()` on the value kinds that reach string interpolation in
the handlers: a stored ObjectId renders as its hexadecimal form. -/
def valueStr : Value → String
  | .vStr s => s
  | .vOid s => s
  | .vNull => "None"
  | .vList _ => ""
  | .vDict _ => ""

/-- Python slicing `s[:n]` by code points. -/
def strTake (s : String) (n : Nat) : String :=
  String.mk (s.toList.take n)

/-- Python slicing `s[-n:]` by code points: the last `n` characters, or
the whole string when it is shorter than `n`. -/
def lastChars (n : Nat) (s : String) : String :=
  String.mk (s.toList.drop (s.toList.length - n))

/-- Lower-case hexadecimal digit for `n < 16` (as produced by ObjectId
generation). -/
def hexChar (n : Nat) : Char :=
  if n < 10 then Char.ofNat (48 + n) else if n < 16 then Char.ofNat (87 + n) else Char.ofNat 48

/-- The 24-character hexadecimal string form of the `n`-th generated
ObjectId. Modelled from the spec: identifiers are arbitrary generated
values; we generate them deterministically from a counter. -/
def oidOfNat (n : Nat) : String :=
  String.mk ((List.range 24).map (fun i => hexChar (n / 16 ^ (23 - i) % 16)))

/-- Is `c` a hexadecimal digit, as accepted by `bson.ObjectId`. -/
def isHexChar (c : Char) : Bool :=
  c.isDigit || (Char.ofNat 97 ≤ c && c ≤ Char.ofNat 102) || (Char.ofNat 65 ≤ c && c ≤ Char.ofNat 70)

/-- Predicate for `bson.ObjectId(s)`: it accepts exactly the 24-character hexadecimal
strings; anything else raises `InvalidId`. -/
def isValidOid (s : String) : Bool :=
  s.length == 24 && s.toList.all isHexChar

/-- Does an optional field value equal the stored ObjectId `oid`
(the comparison made by `find_one` on the `_id` field). -/
def isOidVal (oid : String) : Option Value → Bool
  | some (.vOid s) => s == oid
  | _ => false

/-- Lookup `find_one` on a collection by `_id`: first document whose `_id`
equals the given ObjectId. -/
def findDoc (l : List Doc) (oid : String) : Option Doc :=
  l.find? (fun d => isOidVal oid (getField "_id" d))

/-- Update `update_one` by `_id`: applies `f` to the first matching document. -/
def updateById (oid : String) (f : Doc → Doc) : List Doc → List Doc
  | [] => []
  | d :: ds => if isOidVal oid (getField "_id" d) then f d :: ds else d :: updateById oid f ds

/-- The process-wide state seen by a request: whether the store
connection is configured (`db is not None`), the configured public base
URL, the counter feeding ObjectId generation, and the collections. -/
structure Store where
  dbOk : Bool
  publicUrl : String
  nextId : Nat
  collections : String → List Doc

/-- How a handler terminates abnormally: an `HTTPException(code, detail)`,
an uncaught `bson.errors.InvalidId`, or an uncaught pydantic
`ValidationError` (the latter two surface as generic server errors, not
as a 404). -/
inductive Err where
  | http : Nat → String → Err
  | invalidId : Err
  | validation : Err
deriving DecidableEq, Repr

/-- The explicit "not configured" condition. -/
def notConfigured : Err := .http 500 "Database not configured"

/-- Conversion `ObjectId(s)`: succeeds on well-formed identifier strings, raises
`InvalidId` otherwise. -/
def objectId (s : String) : Except Err String :=
  if isValidOid s then .ok s else .error .invalidId

/-- Modelled from the spec: `create_document(collection, record)` of the
store adapter (`database.py`, absent from the sources). Serializes the
record fields, inserts them under a fresh identifier into the named
collection and returns the identifier as a string; fails with the
explicit not-configured condition when the connection is unavailable. -/
def create_document (coll : String) (doc : Doc) (s : Store) : Except Err (String × Store) :=
  if s.dbOk then
    let oid := oidOfNat s.nextId
    .ok (oid,
      { s with
        nextId := s.nextId + 1,
        collections := fun n =>
          if n = coll then s.collections n ++ [("_id", .vOid oid) :: doc]
          else s.collections n })
  else .error notConfigured

/-- Modelled from the spec: `get_documents(collection, limit)` of the
store adapter (`database.py`, absent from the sources). Returns up to
`limit` records of the collection, each including its identifier; fails
with the explicit not-configured condition when unavailable. -/
def get_documents (coll : String) (limit : Nat) (s : Store) : Except Err (List Doc) :=
  if s.dbOk then .ok ((s.collections coll).take limit) else .error notConfigured

/-- Mapping `_to_public`: empty documents pass through; otherwise the internal
`_id` field, when present, is popped and re-exposed as the public string
field `id`. -/
def to_public (doc : Doc) : Doc :=
  if doc.isEmpty then doc
  else
    match getField "_id" doc with
    | none => doc
    | some v => setField "id" (.vStr (valueStr v)) (removeField "_id" doc)

/-- Request body of `POST /api/generate`. -/
structure PromptRequest where
  prompt : String
  parameters : Option (List (String × Value))

/-- Request body of `POST /api/deploy`. -/
structure DeployRequest where
  model_id : String
  name : Option String

/-- Response of `POST /api/generate` (HTTP 201). -/
structure GenResponse where
  job_id : String
  model_id : String
deriving DecidableEq, Repr

/-- Response of `POST /api/deploy` (HTTP 201). -/
structure DeployResponse where
  deployment_id : String
deriving DecidableEq, Repr

/-- Response of `GET /serve/{model_id}`. -/
structure ServeResponse where
  model_id : String
  status : String
  output : String
deriving DecidableEq, Repr

/-- The serialized fields of `GenerationJob(prompt=.., status="running",
model_id=None)`, in declaration order. -/
def jobDoc (prompt : String) : Doc :=
  [("prompt", .vStr prompt), ("status", .vStr "running"), ("model_id", .vNull)]

/-- Expression `req.parameters.get("name", "Prompt Model") if req and
req.parameters else "Prompt Model"`: an absent or empty parameter map is falsy. -/
def modelName (req : PromptRequest) : Value :=
  match req.parameters with
  | some ps => if ps.isEmpty then .vStr "Prompt Model" else (getField "name" ps).getD (.vStr "Prompt Model")
  | none => .vStr "Prompt Model"

/-- Pydantic validation of the `name: str` field of `ModelSpec`
(schemas.py line 45): a string value passes; a null, list or dict value
raises `ValidationError` in the constructor. -/
def validName : Value → Bool
  | .vStr _ => true
  | _ => false

/-- The serialized fields of the fabricated `ModelSpec`, once its
constructor validation has passed. -/
def modelSpecDoc (req : PromptRequest) : Doc :=
  [("name", modelName req),
   ("prompt", .vStr req.prompt),
   ("version", .vStr "v1"),
   ("status", .vStr "ready"),
   ("parameters", .vDict (req.parameters.getD [])),
   ("artifacts", .vList [.vStr "weights://mock/model.bin", .vStr "tokenizer://mock/vocab.json"])]

/-- The `ModelSpec(...)` constructor call of the generate handler
(main.py lines 99-106): validates the `name` field against `name: str`
and yields the serialized record, or raises `ValidationError`. -/
def modelSpecCtor (req : PromptRequest) : Except Err Doc :=
  if validName (modelName req) then .ok (modelSpecDoc req) else .error .validation

/-- The `$set` document of the job update: status "completed" and the
new model identifier. -/
def completeJob (model_id : String) (d : Doc) : Doc :=
  setField "model_id" (.vStr model_id) (setField "status" (.vStr "completed") d)

/-- Replaces one collection of the store. -/
def updateColl (s : Store) (coll : String) (f : List Doc → List Doc) : Store :=
  { s with collections := fun n => if n = coll then f (s.collections n) else s.collections n }

/-- The availability check `if db is None: raise HTTPException(500,
"Database not configured")` appearing in the handlers. -/
def ensureDb (s : Store) : Except Err Unit :=
  if s.dbOk then .ok () else .error notConfigured

/-- Handler of `POST /api/generate`: inserts a running `GenerationJob`,
fabricates a `ModelSpec` (its constructor may raise `ValidationError`),
inserts it, checks availability, updates the job to completed with the
model identifier, returns both identifiers. -/
def generate_model (req : PromptRequest) (s : Store) : Except Err (Store × GenResponse) := do
  let (job_id, s₁) ← create_document "generationjob" (jobDoc req.prompt) s
  let mdoc ← modelSpecCtor req
  let (model_id, s₂) ← create_document "modelspec" mdoc s₁
  let _ ← ensureDb s₂
  let oid ← objectId job_id
  let s₃ := updateColl s₂ "generationjob" (updateById oid (completeJob model_id))
  return (s₃, ⟨job_id, model_id⟩)

/-- Handler of `GET /api/models?limit=N`. -/
def list_models (limit : Nat) (s : Store) : Except Err (List Doc) :=
  (get_documents "modelspec" limit s).map (List.map to_public)

/-- Handler of `GET /api/deployments?limit=N`. -/
def list_deployments (limit : Nat) (s : Store) : Except Err (List Doc) :=
  (get_documents "deployment" limit s).map (List.map to_public)

/-- Expression `req.name or f"deployment-..."` (dash and the last six
characters of the model identifier): an absent or empty
name is falsy and yields the generated default. -/
def deploymentName (req : DeployRequest) : String :=
  match req.name with
  | some n => if n.isEmpty then "deployment-" ++ lastChars 6 req.model_id else n
  | none => "deployment-" ++ lastChars 6 req.model_id

/-- The serialized fields of the created `Deployment`. -/
def deploymentDoc (req : DeployRequest) (publicUrl : String) : Doc :=
  [("model_id", .vStr req.model_id),
   ("name", .vStr (deploymentName req)),
   ("url", .vStr (publicUrl ++ "/serve/" ++ req.model_id)),
   ("status", .vStr "active")]

/-- Handler of `POST /api/deploy`: checks availability, parses the
identifier, looks the model up (404 when absent), inserts a Deployment
and returns its identifier. -/
def deploy_model (req : DeployRequest) (s : Store) : Except Err (Store × DeployResponse) := do
  let _ ← ensureDb s
  let oid ← objectId req.model_id
  match findDoc (s.collections "modelspec") oid with
  | none => .error (.http 404 "Model not found")
  | some _ => do
    let (dep_id, s₁) ← create_document "deployment" (deploymentDoc req s.publicUrl) s
    return (s₁, ⟨dep_id⟩)

/-- Expression `q or "ping"`: `None` and the empty string are falsy. -/
def queryOrPing (q : Option String) : String :=
  match q with
  | some t => if t.isEmpty then "ping" else t
  | none => "ping"

/-- The apostrophe character. -/
def squote : Char := Char.ofNat 39

/-- The echoed output `f"Model ... responded to: ..."` of the serve
handler, quoting the model name in apostrophes. -/
def serveOutput (name : Value) (q : Option String) : String :=
  "Model " ++ String.singleton squote ++ valueStr name ++ String.singleton squote
    ++ " responded to: " ++ queryOrPing q

/-- Handler of `GET /serve/{model_id}?q=...`: checks availability, parses
the identifier, looks the model up (404 when absent), echoes a response
built from the model name and the query string. -/
def serve_model (model_id : String) (q : Option String) (s : Store) : Except Err ServeResponse := do
  let _ ← ensureDb s
  let oid ← objectId model_id
  match findDoc (s.collections "modelspec") oid with
  | none => .error (.http 404 "Model not found")
  | some m => return ⟨model_id, "ok", serveOutput ((getField "name" m).getD (.vStr "Model")) q⟩

/-- The `db` object as seen by the diagnostic endpoint: its `name`
attribute when it has one, and the outcome of `list_collection_names()`
(a list, or a raised exception with its message). -/
structure DBState where
  name : Option String
  listResult : Except String (List String)

/-- Environment of `GET /test`: the optional `db` object and whether the
two configuration variables are set. -/
structure TestEnv where
  db : Option DBState
  databaseUrlSet : Bool
  databaseNameSet : Bool

/-- The diagnostic response of `GET /test`. -/
structure TestResponse where
  backend : String
  database : String
  database_url : String
  database_name : String
  connection_status : String
  collections : List String
deriving DecidableEq, Repr

/-- Handler of `GET /test`: builds the baseline response, describes the
connection state, truncates a collection-listing error message to 50
characters, and reports the two configuration variables. -/
def test_database (env : TestEnv) : TestResponse :=
  let base : TestResponse :=
    ⟨"✅ Running", "❌ Not Available", "None", "None", "Not Connected", []⟩
  let r :=
    match env.db with
    | some d =>
      let r₁ := { base with
        database := "✅ Available",
        database_url := "✅ Configured",
        database_name := d.name.getD "✅ Connected",
        connection_status := "Connected" }
      match d.listResult with
      | .ok cols => { r₁ with collections := cols.take 10, database := "✅ Connected & Working" }
      | .error e => { r₁ with database := "⚠️  Connected but Error: " ++ strTake e 50 }
    | none => { base with database := "⚠️  Available but not initialized" }
  { r with
    database_url := if env.databaseUrlSet then "✅ Set" else "❌ Not Set",
    database_name := if env.databaseNameSet then "✅ Set" else "❌ Not Set" }

/-- One incoming request, covering every route of the application. -/
inductive ApiReq where
  | root : ApiReq
  | test : ApiReq
  | schema : ApiReq
  | generate : PromptRequest → ApiReq
  | listModels : Nat → ApiReq
  | deploy : DeployRequest → ApiReq
  | listDeployments : Nat → ApiReq
  | serve : String → Option String → ApiReq

/-- The store after a request is handled: only `POST /api/generate` and
`POST /api/deploy` write; every other route leaves the store as is. -/
def dispatch : ApiReq → Store → Except Err Store
  | .root, s => .ok s
  | .test, s => .ok s
  | .schema, s => .ok s
  | .generate r, s => (generate_model r s).map Prod.fst
  | .listModels n, s => (list_models n s).map (fun _ => s)
  | .deploy r, s => (deploy_model r s).map Prod.fst
  | .listDeployments n, s => (list_deployments n s).map (fun _ => s)
  | .serve m q, s => (serve_model m q s).map (fun _ => s)

/-- Lookup of a document by identifier in one collection of the store. -/
def findById (s : Store) (coll : String) (oid : String) : Option Doc :=
  findDoc (s.collections coll) oid

/-- Every stored `GenerationJob` has status "running" or "completed". -/
def jobStatusOk (s : Store) : Prop :=
  ∀ d ∈ s.collections "generationjob",
    getField "status" d = some (.vStr "running") ∨ getField "status" d = some (.vStr "completed")

/-- A configured store with empty collections. -/
def emptyStore : Store := ⟨true, "", 0, fun _ => []⟩

/-- A store whose connection is unavailable (`db is None`). -/
def downStore : Store := ⟨false, "", 0, fun _ => []⟩

/-- A sample stored `ModelSpec` document. -/
def sampleModelDoc : Doc := ("_id", .vOid (oidOfNat 0)) :: modelSpecDoc ⟨"p", none⟩

/-- A configured store holding one `ModelSpec`. -/
def oneModelStore : Store :=
  ⟨true, "", 1, fun n => if n = "modelspec" then [sampleModelDoc] else []⟩

/-- The store of a successful handler outcome (`fallback` otherwise). -/
def okStore {α : Type} (fallback : Store) : Except Err (Store × α) → Store
  | .ok (s, _) => s
  | .error _ => fallback

/-- The response of a successful handler outcome. -/
def okResp {α : Type} (fallback : α) : Except Err (Store × α) → α
  | .ok (_, r) => r
  | .error _ => fallback

/-- The store produced by a successful `POST /api/generate` run: the two
inserts followed by the in-place job update. -/
def genResultStore (req : PromptRequest) (s : Store) : Store :=
  let jid := oidOfNat s.nextId
  let mid := oidOfNat (s.nextId + 1)
  let s₁ : Store :=
    { s with
      nextId := s.nextId + 1,
      collections := fun n =>
        if n = "generationjob" then s.collections n ++ [("_id", .vOid jid) :: jobDoc req.prompt]
        else s.collections n }
  let s₂ : Store :=
    { s₁ with
      nextId := s₁.nextId + 1,
      collections := fun n =>
        if n = "modelspec" then s₁.collections n ++ [("_id", .vOid mid) :: modelSpecDoc req]
        else s₁.collections n }
  updateColl s₂ "generationjob" (updateById jid (completeJob mid))

/-! ### Helper lemmas -/

theorem isHexChar_hexChar {k : Nat} (h : k < 16) : isHexChar (hexChar k) = true := by
  interval_cases k <;> decide

theorem isValidOid_oidOfNat (n : Nat) : isValidOid (oidOfNat n) = true := by
  unfold isValidOid oidOfNat
  rw [Bool.and_eq_true, beq_iff_eq]
  constructor
  · show (String.mk _).length = 24
    simp [String.length]
  · rw [List.all_eq_true]
    intro c hc
    have hc₂ : c ∈ (List.range 24).map (fun i => hexChar (n / 16 ^ (23 - i) % 16)) := hc
    obtain ⟨i, _, hi⟩ := List.mem_map.mp hc₂
    subst hi
    exact isHexChar_hexChar (Nat.mod_lt _ (by norm_num))

theorem objectId_oidOfNat (n : Nat) : objectId (oidOfNat n) = .ok (oidOfNat n) := by
  simp [objectId, isValidOid_oidOfNat]

theorem getField_setField_self (k : String) (v : Value) (d : Doc) :
    getField k (setField k v d) = some v := by
  induction d with
  | nil => simp [setField, getField]
  | cons p d ih =>
    obtain ⟨k₁, v₁⟩ := p
    by_cases h : k₁ = k
    · simp [setField, getField, h]
    · simp [setField, getField, h, ih]

theorem getField_setField_ne {k₁ k : String} (h : k₁ ≠ k) (v : Value) (d : Doc) :
    getField k₁ (setField k v d) = getField k₁ d := by
  induction d with
  | nil => simp [setField, getField, Ne.symm h]
  | cons p d ih =>
    obtain ⟨k₂, v₂⟩ := p
    by_cases h₂ : k₂ = k
    · subst h₂
      simp [setField, getField, Ne.symm h]
    · by_cases h₃ : k₂ = k₁
      · simp [setField, getField, h₂, h₃, h]
      · simp [setField, getField, h₂, h₃, ih]

theorem getField_removeField_self (k : String) (d : Doc) :
    getField k (removeField k d) = none := by
  induction d with
  | nil => rfl
  | cons p d ih =>
    obtain ⟨k₁, v₁⟩ := p
    by_cases h : k₁ = k
    · simpa [removeField, List.filter, h] using ih
    · simpa [removeField, List.filter, h, getField] using ih

theorem updateById_append_left_none {oid : String} {f : Doc → Doc} {l₁ l₂ : List Doc}
    (h : findDoc l₁ oid = none) :
    updateById oid f (l₁ ++ l₂) = l₁ ++ updateById oid f l₂ := by
  induction l₁ with
  | nil => rfl
  | cons d ds ih =>
    rw [findDoc, List.find?_eq_none] at h
    have hd : ¬ isOidVal oid (getField "_id" d) = true := h d (List.mem_cons_self d ds)
    have hds : findDoc ds oid = none := by
      rw [findDoc, List.find?_eq_none]
      exact fun x hx => h x (List.mem_cons_of_mem d hx)
    rw [List.cons_append, updateById, if_neg hd, ih hds, List.cons_append]

theorem mem_updateById {oid : String} {f : Doc → Doc} {l : List Doc} {d : Doc}
    (h : d ∈ updateById oid f l) : d ∈ l ∨ ∃ d₀ ∈ l, d = f d₀ := by
  induction l with
  | nil => simp [updateById] at h
  | cons e es ih =>
    rw [updateById] at h
    by_cases hc : isOidVal oid (getField "_id" e) = true
    · rw [if_pos hc] at h
      rcases List.mem_cons.mp h with h₁ | h₂
      · exact Or.inr ⟨e, List.mem_cons_self e es, h₁⟩
      · exact Or.inl (List.mem_cons_of_mem e h₂)
    · rw [if_neg hc] at h
      rcases List.mem_cons.mp h with h₁ | h₂
      · exact Or.inl (h₁ ▸ List.mem_cons_self e es)
      · rcases ih h₂ with h₃ | ⟨d₀, hd₀, hf⟩
        · exact Or.inl (List.mem_cons_of_mem e h₃)
        · exact Or.inr ⟨d₀, List.mem_cons_of_mem e hd₀, hf⟩

theorem to_public_of_id {d : Doc} {v : Value} (h : getField "_id" d = some v) :
    getField "id" (to_public d) = some (.vStr (valueStr v)) ∧
    getField "_id" (to_public d) = none := by
  have hne : d.isEmpty = false := by
    cases d with
    | nil => simp [getField] at h
    | cons p d => rfl
  rw [to_public, hne]
  simp only [Bool.false_eq_true, if_false, h]
  refine ⟨getField_setField_self _ _ _, ?_⟩
  rw [getField_setField_ne (by decide) _ _]
  exact getField_removeField_self _ _

theorem generate_model_run (req : PromptRequest) (s : Store) (h : s.dbOk = true)
    (hname : validName (modelName req) = true) :
    ∃ s', generate_model req s = .ok (s', ⟨oidOfNat s.nextId, oidOfNat (s.nextId + 1)⟩) ∧
      s'.collections "modelspec" =
        s.collections "modelspec" ++ [("_id", .vOid (oidOfNat (s.nextId + 1))) :: modelSpecDoc req] ∧
      s'.collections "generationjob" =
        updateById (oidOfNat s.nextId) (completeJob (oidOfNat (s.nextId + 1)))
          (s.collections "generationjob" ++ [("_id", .vOid (oidOfNat s.nextId)) :: jobDoc req.prompt]) ∧
      (∀ n, n ≠ "modelspec" → n ≠ "generationjob" → s'.collections n = s.collections n) := by
  refine ⟨genResultStore req s, ?_, ?_, ?_, ?_⟩
  · simp only [generate_model, create_document, ensureDb, modelSpecCtor, hname, h, if_true,
      bind, Except.bind, objectId_oidOfNat, genResultStore, updateColl]
    rfl
  · simp [genResultStore, updateColl]
  · simp [genResultStore, updateColl]
  · intro n h₁ h₂
    simp [genResultStore, updateColl, h₁, h₂]

theorem serve_model_ok_output {mid : String} {q : Option String} {s : Store} {r : ServeResponse}
    (h : serve_model mid q s = .ok r) :
    ∃ m, findDoc (s.collections "modelspec") mid = some m ∧
      r.output = serveOutput ((getField "name" m).getD (.vStr "Model")) q := by
  simp only [serve_model, bind, Except.bind, ensureDb, objectId] at h
  by_cases hdb : s.dbOk = true
  · rw [if_pos hdb] at h
    by_cases hv : isValidOid mid = true
    · rw [if_pos hv] at h
      dsimp only at h
      cases hf : findDoc (s.collections "modelspec") mid with
      | none => rw [hf] at h; exact absurd h (by simp)
      | some m =>
        rw [hf] at h
        injection h with h
        exact ⟨m, rfl, by rw [← h]⟩
    · rw [if_neg hv] at h
      exact absurd h (by simp)
  · rw [if_neg hdb] at h
    exact absurd h (by simp)

theorem serveOutput_decomp (name : Value) (q : Option String) :
    serveOutput name q =
      ("Model " ++ String.singleton squote ++ valueStr name ++ String.singleton squote
        ++ " responded to: ") ++ queryOrPing q := rfl

/-- C5: for an existing model, `GET /serve/{model_id}` with no query
parameter returns an output containing the substring "ping", and with
`q=hello` an output containing "hello". -/
theorem c5_serve_output_ping_and_hello (s : Store) (mid : String) :
    (∀ r, serve_model mid none s = .ok r → ∃ a b, r.output = a ++ "ping" ++ b) ∧
    (∀ r, serve_model mid (some "hello") s = .ok r → ∃ a b, r.output = a ++ "hello" ++ b) := by
  constructor
  · intro r h
    obtain ⟨m, _, hout⟩ := serve_model_ok_output h
    refine ⟨"Model " ++ String.singleton squote ++ valueStr ((getField "name" m).getD (.vStr "Model")) ++ String.singleton squote ++ " responded to: ", "", ?_⟩
    rw [hout, serveOutput_decomp]
    simp [queryOrPing]
  · intro r h
    obtain ⟨m, _, hout⟩ := serve_model_ok_output h
    refine ⟨"Model " ++ String.singleton squote ++ valueStr ((getField "name" m).getD (.vStr "Model")) ++ String.singleton squote ++ " responded to: ", "", ?_⟩
    rw [hout, serveOutput_decomp, show queryOrPing (some "hello") = "hello" from rfl]
    simp

/-- C5 witness: on a store holding one model, serving without a query
yields output containing "ping", and with `q=hello` containing "hello". -/
theorem c5_serve_output_ping_and_hello_witness :
    (∃ a b, (okResp ⟨"", "", ""⟩ ((serve_model (oidOfNat 0) none oneModelStore).map (fun r => (emptyStore, r)))).output = a ++ "ping" ++ b) ∧
    (∃ a b, (okResp ⟨"", "", ""⟩ ((serve_model (oidOfNat 0) (some "hello") oneModelStore).map (fun r => (emptyStore, r)))).output = a ++ "hello" ++ b) :=
  ⟨(c5_serve_output_ping_and_hello oneModelStore (oidOfNat 0)).1 _ rfl,
   (c5_serve_output_ping_and_hello oneModelStore (oidOfNat 0)).2 _ rfl⟩

/-- C7: when the store is unavailable, `POST /api/generate` fails with
HTTP 500 and detail "Database not configured"; the availability check
placed immediately before the job update raises this condition. -/
theorem c7_generate_unconfigured_store (req : PromptRequest) (s : Store) (h : s.dbOk = false) :
    generate_model req s = .error (.http 500 "Database not configured") ∧
    ensureDb s = .error (.http 500 "Database not configured") := by
  constructor
  · simp [generate_model, create_document, h, bind, Except.bind, notConfigured]
  · simp [ensureDb, h, notConfigured]

/-- C7 witness: the concrete unavailable store. -/
theorem c7_generate_unconfigured_store_witness :
    generate_model ⟨"p", none⟩ downStore = .error (.http 500 "Database not configured") ∧
    ensureDb downStore = .error (.http 500 "Database not configured") :=
  c7_generate_unconfigured_store ⟨"p", none⟩ downStore rfl

/-- C9: an empty query string is falsy, so serving with `q=""` is
identical to serving with the parameter absent, and its output contains
the placeholder "ping". -/
theorem c9_serve_empty_query_as_absent (mid : String) (s : Store) :
    serve_model mid (some "") s = serve_model mid none s ∧
    (∀ r, serve_model mid (some "") s = .ok r → ∃ a b, r.output = a ++ "ping" ++ b) := by
  refine ⟨rfl, ?_⟩
  intro r h
  obtain ⟨m, _, hout⟩ := serve_model_ok_output h
  refine ⟨"Model " ++ String.singleton squote ++ valueStr ((getField "name" m).getD (.vStr "Model")) ++ String.singleton squote ++ " responded to: ", "", ?_⟩
  rw [hout, serveOutput_decomp, show queryOrPing (some "") = "ping" from rfl]
  simp

/-- C9 witness: on a store holding one model, `q=""` evaluates to the
same response as no query, with "ping" in the output. -/
theorem c9_serve_empty_query_as_absent_witness :
    serve_model (oidOfNat 0) (some "") oneModelStore = serve_model (oidOfNat 0) none oneModelStore ∧
    (∃ a b, (okResp ⟨"", "", ""⟩ ((serve_model (oidOfNat 0) (some "") oneModelStore).map (fun r => (emptyStore, r)))).output = a ++ "ping" ++ b) :=
  ⟨(c9_serve_empty_query_as_absent (oidOfNat 0) oneModelStore).1,
   (c9_serve_empty_query_as_absent (oidOfNat 0) oneModelStore).2 _ rfl⟩

/-- C10: a malformed identifier (not 24 hexadecimal characters) makes
`POST /api/deploy` and `GET /serve/{model_id}` raise `InvalidId` before
any lookup, an unhandled error distinct from the 404 used for
well-formed but absent identifiers. -/
theorem c10_malformed_id_raises_invalid (s : Store) (mid : String) (name : Option String)
    (q : Option String) (hdb : s.dbOk = true) (hbad : isValidOid mid = false) :
    deploy_model ⟨mid, name⟩ s = .error .invalidId ∧
    serve_model mid q s = .error .invalidId ∧
    Err.invalidId ≠ .http 404 "Model not found" := by
  refine ⟨?_, ?_, by decide⟩
  · simp [deploy_model, ensureDb, hdb, objectId, hbad, bind, Except.bind]
  · simp [serve_model, ensureDb, hdb, objectId, hbad, bind, Except.bind]

/-- C10 witness: the identifier "bad" on a configured store. -/
theorem c10_malformed_id_raises_invalid_witness :
    deploy_model ⟨"bad", none⟩ emptyStore = .error .invalidId ∧
    serve_model "bad" none emptyStore = .error .invalidId ∧
    Err.invalidId ≠ .http 404 "Model not found" :=
  c10_malformed_id_raises_invalid emptyStore "bad" none none rfl rfl

theorem getField_completeJob_status (mid : String) (d : Doc) :
    getField "status" (completeJob mid d) = some (.vStr "completed") := by
  rw [completeJob, getField_setField_ne (by decide) _ _]
  exact getField_setField_self _ _ _

theorem getField_completeJob_model_id (mid : String) (d : Doc) :
    getField "model_id" (completeJob mid d) = some (.vStr mid) :=
  getField_setField_self _ _ _

theorem getField_completeJob_id (mid : String) (d : Doc) :
    getField "_id" (completeJob mid d) = getField "_id" d := by
  rw [completeJob, getField_setField_ne (by decide) _ _, getField_setField_ne (by decide) _ _]

/-- C1, counterexample: the valid request body with `parameters` mapping
`name` to null passes `PromptRequest` validation, yet the handler aborts
in the `ModelSpec` constructor with an unhandled `ValidationError`
instead of returning HTTP 201. -/
theorem c1_generate_null_name_counterexample :
    generate_model ⟨"p", some [("name", .vNull)]⟩ emptyStore = .error .validation := rfl

/-- C1 (amended): a valid `POST /api/generate` whose parameter map does
not send `name` to a non-string value succeeds on a configured store and
returns identifiers under which the stored `ModelSpec` has status
"ready" with exactly two artifacts, and the stored `GenerationJob` has
status "completed" pointing at the returned model identifier. -/
theorem c1_generate_ready_model_completed_job (req : PromptRequest) (s : Store)
    (hdb : s.dbOk = true)
    (hname : validName (modelName req) = true)
    (hm : findById s "modelspec" (oidOfNat (s.nextId + 1)) = none)
    (hj : findById s "generationjob" (oidOfNat s.nextId) = none) :
    ∃ s' jid mid, generate_model req s = .ok (s', ⟨jid, mid⟩) ∧
      (∃ m, findById s' "modelspec" mid = some m ∧
        getField "status" m = some (.vStr "ready") ∧
        ∃ arts, getField "artifacts" m = some (.vList arts) ∧ arts.length = 2) ∧
      (∃ j, findById s' "generationjob" jid = some j ∧
        getField "status" j = some (.vStr "completed") ∧
        getField "model_id" j = some (.vStr mid)) := by
  obtain ⟨s', hrun, hms, hgj, _⟩ := generate_model_run req s hdb hname
  refine ⟨s', _, _, hrun, ?_, ?_⟩
  · refine ⟨("_id", .vOid (oidOfNat (s.nextId + 1))) :: modelSpecDoc req, ?_, ?_, ?_⟩
    · rw [findById, hms, findDoc, List.find?_append]
      have hm₁ : List.find?
          (fun d => isOidVal (oidOfNat (s.nextId + 1)) (getField "_id" d))
          (s.collections "modelspec") = none := hm
      rw [hm₁, Option.none_or]
      simp [List.find?, getField, isOidVal]
    · simp [modelSpecDoc, getField]
    · exact ⟨[.vStr "weights://mock/model.bin", .vStr "tokenizer://mock/vocab.json"],
        by simp [modelSpecDoc, getField], rfl⟩
  · refine ⟨completeJob (oidOfNat (s.nextId + 1)) (("_id", .vOid (oidOfNat s.nextId)) :: jobDoc req.prompt), ?_, ?_, ?_⟩
    · have hj₁ : findDoc (s.collections "generationjob") (oidOfNat s.nextId) = none := hj
      rw [findById, hgj, updateById_append_left_none hj₁]
      have hmatch : isOidVal (oidOfNat s.nextId)
          (getField "_id" (("_id", Value.vOid (oidOfNat s.nextId)) :: jobDoc req.prompt)) = true := by
        simp [getField, isOidVal]
      rw [updateById, if_pos hmatch]
      rw [findDoc, List.find?_append]
      have hj₂ : List.find?
          (fun d => isOidVal (oidOfNat s.nextId) (getField "_id" d))
          (s.collections "generationjob") = none := hj
      rw [hj₂, Option.none_or]
      rw [List.find?]
      have : isOidVal (oidOfNat s.nextId)
          (getField "_id" (completeJob (oidOfNat (s.nextId + 1))
            (("_id", Value.vOid (oidOfNat s.nextId)) :: jobDoc req.prompt))) = true := by
        rw [getField_completeJob_id]
        simp [getField, isOidVal]
      rw [this]
    · exact getField_completeJob_status _ _
    · exact getField_completeJob_model_id _ _

/-- C1 witness: the concrete run on the empty configured store. -/
theorem c1_generate_ready_model_completed_job_witness :
    ∃ s' jid mid, generate_model ⟨"p", none⟩ emptyStore = .ok (s', ⟨jid, mid⟩) ∧
      (∃ m, findById s' "modelspec" mid = some m ∧
        getField "status" m = some (.vStr "ready") ∧
        ∃ arts, getField "artifacts" m = some (.vList arts) ∧ arts.length = 2) ∧
      (∃ j, findById s' "generationjob" jid = some j ∧
        getField "status" j = some (.vStr "completed") ∧
        getField "model_id" j = some (.vStr mid)) :=
  c1_generate_ready_model_completed_job ⟨"p", none⟩ emptyStore rfl rfl rfl rfl

/-- C2: `GET /api/models` returns at most `limit` records; every record
whose stored form carries an identifier comes back with the public `id`
string field and without the internal `_id` field. -/
theorem c2_list_models_limit_public_id (s : Store) (limit : Nat) (out : List Doc)
    (hid : ∀ d ∈ s.collections "modelspec", ∃ v, getField "_id" d = some v)
    (hout : list_models limit s = .ok out) :
    out.length ≤ limit ∧
    (∀ d ∈ out, getField "_id" d = none ∧ ∃ i, getField "id" d = some (.vStr i)) ∧
    (∀ (d : Doc) (v : Value), getField "_id" d = some v →
      getField "id" (to_public d) = some (.vStr (valueStr v))) := by
  have hout₂ : out = ((s.collections "modelspec").take limit).map to_public := by
    revert hout
    simp only [list_models, get_documents]
    cases hdb : s.dbOk
    · intro h
      exact absurd h (by simp [Except.map])
    · intro h
      simp only [if_true, Except.map] at h
      exact (Except.ok.inj h).symm
  subst hout₂
  refine ⟨?_, ?_, fun d v h => (to_public_of_id h).1⟩
  · rw [List.length_map, List.length_take]
    exact Nat.min_le_left _ _
  · intro d hd
    obtain ⟨d₀, hd₀mem, hd₀⟩ := List.mem_map.mp hd
    obtain ⟨v, hv⟩ := hid d₀ (List.take_subset _ _ hd₀mem)
    obtain ⟨h₁, h₂⟩ := to_public_of_id hv
    exact ⟨hd₀ ▸ h₂, valueStr v, hd₀ ▸ h₁⟩

/-- C2 witness: listing the one-model store with limit 5. -/
theorem c2_list_models_limit_public_id_witness :
    ([to_public sampleModelDoc] : List Doc).length ≤ 5 ∧
    (∀ d ∈ ([to_public sampleModelDoc] : List Doc),
      getField "_id" d = none ∧ ∃ i, getField "id" d = some (.vStr i)) ∧
    (∀ (d : Doc) (v : Value), getField "_id" d = some v →
      getField "id" (to_public d) = some (.vStr (valueStr v))) :=
  c2_list_models_limit_public_id oneModelStore 5 [to_public sampleModelDoc]
    (by
      intro d hd
      simp only [oneModelStore, if_true, List.mem_singleton] at hd
      subst hd
      exact ⟨.vOid (oidOfNat 0), rfl⟩)
    rfl

/-- C3, counterexample: a malformed `model_id` matches no existing
`ModelSpec`, yet the handler does not respond 404; it raises `InvalidId`
instead. -/
theorem c3_deploy_missing_model_counterexample :
    deploy_model ⟨"missing", none⟩ emptyStore = .error .invalidId ∧
    deploy_model ⟨"missing", none⟩ emptyStore ≠ .error (.http 404 "Model not found") := by
  constructor
  · rfl
  · intro h
    rw [show deploy_model ⟨"missing", none⟩ emptyStore = .error .invalidId from rfl] at h
    simp at h

/-- C3 (amended): on a configured store, a deploy request whose
`model_id` is well-formed but matches no `ModelSpec` yields HTTP 404,
and no Deployment is created (the handler aborts with the error). -/
theorem c3_deploy_missing_model_404 (req : DeployRequest) (s : Store)
    (hdb : s.dbOk = true) (hvalid : isValidOid req.model_id = true)
    (habsent : findById s "modelspec" req.model_id = none) :
    deploy_model req s = .error (.http 404 "Model not found") := by
  have habsent₂ : findDoc (s.collections "modelspec") req.model_id = none := habsent
  simp only [deploy_model, bind, Except.bind, ensureDb, objectId, hdb, if_true, hvalid,
    habsent₂]

/-- C3 witness: a well-formed identifier on the empty store. -/
theorem c3_deploy_missing_model_404_witness :
    deploy_model ⟨oidOfNat 7, none⟩ emptyStore = .error (.http 404 "Model not found") :=
  c3_deploy_missing_model_404 ⟨oidOfNat 7, none⟩ emptyStore rfl (by decide) rfl

/-- C4: a successful deploy without a `name` stores a Deployment whose
name is "deployment-" followed by the last six characters of the
requested model identifier. -/
theorem c4_deploy_default_name (req : DeployRequest) (s s' : Store) (r : DeployResponse)
    (hname : req.name = none) (hok : deploy_model req s = .ok (s', r)) :
    ∃ d, s'.collections "deployment" = s.collections "deployment" ++ [d] ∧
      getField "name" d = some (.vStr ("deployment-" ++ lastChars 6 req.model_id)) := by
  simp only [deploy_model, bind, Except.bind, ensureDb, objectId] at hok
  by_cases hdb : s.dbOk = true
  · rw [if_pos hdb] at hok
    dsimp only at hok
    by_cases hv : isValidOid req.model_id = true
    · rw [if_pos hv] at hok
      dsimp only at hok
      cases hf : findDoc (s.collections "modelspec") req.model_id with
      | none => rw [hf] at hok; exact absurd hok (by simp)
      | some m =>
        rw [hf] at hok
        simp only [create_document, hdb, if_true] at hok
        injection hok with hok
        obtain ⟨hs, _⟩ := Prod.mk.injEq .. ▸ hok
        refine ⟨("_id", .vOid (oidOfNat s.nextId)) :: deploymentDoc req s.publicUrl, ?_, ?_⟩
        · rw [← congrArg Store.collections hs]
          simp
        · simp [deploymentDoc, getField, deploymentName, hname]
    · rw [if_neg hv] at hok
      exact absurd hok (by simp)
  · rw [if_neg hdb] at hok
    exact absurd hok (by simp)

/-- C4 witness: deploying the sample model without a name. -/
theorem c4_deploy_default_name_witness :
    ∃ d, (okStore emptyStore (deploy_model ⟨oidOfNat 0, none⟩ oneModelStore)).collections "deployment"
        = oneModelStore.collections "deployment" ++ [d] ∧
      getField "name" d = some (.vStr ("deployment-" ++ lastChars 6 (oidOfNat 0))) :=
  c4_deploy_default_name ⟨oidOfNat 0, none⟩ oneModelStore
    (okStore emptyStore (deploy_model ⟨oidOfNat 0, none⟩ oneModelStore))
    (okResp ⟨""⟩ (deploy_model ⟨oidOfNat 0, none⟩ oneModelStore)) rfl rfl

/-- C6: `GET /test` always produces a diagnostic response (the backend
marker is unconditionally present), and when listing collection names
raises, the reported database string embeds the exception message
truncated to at most 50 characters instead of propagating. -/
theorem c6_test_never_fails_truncates (env : TestEnv) :
    (test_database env).backend = "✅ Running" ∧
    (∀ d e, env.db = some d → d.listResult = .error e →
      (test_database env).database = "⚠️  Connected but Error: " ++ strTake e 50 ∧
      (strTake e 50).length ≤ 50) := by
  constructor
  · rcases henv : env.db with _ | d
    · simp [test_database, henv]
    · rcases hl : d.listResult with e | cols
      · simp [test_database, henv, hl]
      · simp [test_database, henv, hl]
  · intro d e hd he
    refine ⟨by simp [test_database, hd, he], ?_⟩
    show (e.toList.take 50).length ≤ 50
    rw [List.length_take]
    exact Nat.min_le_left _ _

/-- C6 witness: a connected `db` whose collection listing raises a
60-character message. -/
theorem c6_test_never_fails_truncates_witness :
    (test_database ⟨some ⟨none, .error "connection refused while enumerating the server collections!"⟩, false, false⟩).backend = "✅ Running" ∧
    ((test_database ⟨some ⟨none, .error "connection refused while enumerating the server collections!"⟩, false, false⟩).database
        = "⚠️  Connected but Error: " ++ strTake "connection refused while enumerating the server collections!" 50 ∧
      (strTake "connection refused while enumerating the server collections!" 50).length ≤ 50) :=
  ⟨(c6_test_never_fails_truncates _).1,
   (c6_test_never_fails_truncates _).2 ⟨none, .error "connection refused while enumerating the server collections!"⟩ _ rfl rfl⟩

theorem generate_model_notConfigured (req : PromptRequest) (s : Store) (h : s.dbOk = false) :
    generate_model req s = .error notConfigured := by
  simp [generate_model, create_document, h, bind, Except.bind]

theorem generate_model_invalidName (req : PromptRequest) (s : Store) (hdb : s.dbOk = true)
    (hname : validName (modelName req) = false) :
    generate_model req s = .error .validation := by
  simp [generate_model, create_document, modelSpecCtor, hname, hdb, bind, Except.bind]

theorem map_const_ok {α : Type} {s s' : Store} {e : Except Err α}
    (h : e.map (fun _ => s) = .ok s') : s' = s := by
  cases e with
  | error _ => simp [Except.map] at h
  | ok _ =>
    simp only [Except.map] at h
    exact (Except.ok.inj h).symm

theorem deploy_model_preserves {req : DeployRequest} {s s' : Store} {r : DeployResponse}
    (hok : deploy_model req s = .ok (s', r)) {n : String} (hn : n ≠ "deployment") :
    s'.collections n = s.collections n := by
  simp only [deploy_model, bind, Except.bind, ensureDb, objectId] at hok
  by_cases hdb : s.dbOk = true
  · rw [if_pos hdb] at hok
    dsimp only at hok
    by_cases hv : isValidOid req.model_id = true
    · rw [if_pos hv] at hok
      dsimp only at hok
      cases hf : findDoc (s.collections "modelspec") req.model_id with
      | none => rw [hf] at hok; exact absurd hok (by simp)
      | some m =>
        rw [hf] at hok
        simp only [create_document, hdb, if_true] at hok
        injection hok with hok
        obtain ⟨hs, _⟩ := Prod.mk.injEq .. ▸ hok
        rw [← congrArg Store.collections hs]
        simp [hn]
    · rw [if_neg hv] at hok
      exact absurd hok (by simp)
  · rw [if_neg hdb] at hok
    exact absurd hok (by simp)

theorem generate_model_completed_job (req : PromptRequest) (s : Store) (hdb : s.dbOk = true)
    (hname : validName (modelName req) = true)
    (hj : findById s "generationjob" (oidOfNat s.nextId) = none) :
    ∃ s' r, generate_model req s = .ok (s', r) ∧
      ∃ j, findById s' "generationjob" r.job_id = some j ∧
        getField "status" j = some (.vStr "completed") ∧
        getField "model_id" j = some (.vStr r.model_id) := by
  obtain ⟨s', hrun, _, hgj, _⟩ := generate_model_run req s hdb hname
  refine ⟨s', _, hrun,
    completeJob (oidOfNat (s.nextId + 1)) (("_id", .vOid (oidOfNat s.nextId)) :: jobDoc req.prompt),
    ?_, getField_completeJob_status _ _, getField_completeJob_model_id _ _⟩
  have hj₁ : findDoc (s.collections "generationjob") (oidOfNat s.nextId) = none := hj
  rw [findById, hgj, updateById_append_left_none hj₁]
  have hmatch : isOidVal (oidOfNat s.nextId)
      (getField "_id" (("_id", Value.vOid (oidOfNat s.nextId)) :: jobDoc req.prompt)) = true := by
    simp [getField, isOidVal]
  rw [updateById, if_pos hmatch]
  rw [findDoc, List.find?_append]
  have hj₂ : List.find?
      (fun d => isOidVal (oidOfNat s.nextId) (getField "_id" d))
      (s.collections "generationjob") = none := hj
  rw [hj₂, Option.none_or]
  rw [List.find?]
  have hcj : isOidVal (oidOfNat s.nextId)
      (getField "_id" (completeJob (oidOfNat (s.nextId + 1))
        (("_id", Value.vOid (oidOfNat s.nextId)) :: jobDoc req.prompt))) = true := by
    rw [getField_completeJob_id]
    simp [getField, isOidVal]
  rw [hcj]

/-- C8, counterexample: a generate request whose parameter map sends
`name` to a list value creates the running job but aborts in the
`ModelSpec` constructor with `ValidationError`, so that request never
updates its job to "completed". -/
theorem c8_generate_abort_counterexample :
    generate_model ⟨"p", some [("name", .vList [])]⟩ emptyStore = .error .validation := rfl

/-- C8 (amended): the `GenerationJob` state machine. A job document is
created with status "running"; a generate run whose fabricated
`ModelSpec` name validates leaves the job it created with status
"completed" and the model identifier (a run failing that validation
aborts without updating the job); and no route of the application ever
stores a job status outside {"running", "completed"} (in particular
never "failed" or "queued"). -/
theorem c8_job_single_transition :
    (∀ prompt, getField "status" (jobDoc prompt) = some (.vStr "running")) ∧
    (∀ (req : PromptRequest) (s : Store), s.dbOk = true →
      validName (modelName req) = true →
      findById s "generationjob" (oidOfNat s.nextId) = none →
      ∃ s' r, generate_model req s = .ok (s', r) ∧
        ∃ j, findById s' "generationjob" r.job_id = some j ∧
          getField "status" j = some (.vStr "completed") ∧
          getField "model_id" j = some (.vStr r.model_id)) ∧
    (∀ (req : ApiReq) (s s' : Store), jobStatusOk s → dispatch req s = .ok s' → jobStatusOk s') := by
  refine ⟨fun prompt => rfl, generate_model_completed_job, ?_⟩
  intro req s s' hst hok
  cases req with
  | root => exact (Except.ok.inj hok) ▸ hst
  | test => exact (Except.ok.inj hok) ▸ hst
  | schema => exact (Except.ok.inj hok) ▸ hst
  | listModels n => exact (map_const_ok hok) ▸ hst
  | listDeployments n => exact (map_const_ok hok) ▸ hst
  | serve m q => exact (map_const_ok hok) ▸ hst
  | deploy r =>
    simp only [dispatch] at hok
    cases hres : deploy_model r s with
    | error _ => rw [hres] at hok; simp [Except.map] at hok
    | ok p =>
      rw [hres] at hok
      simp only [Except.map] at hok
      have hs : s' = p.1 := (Except.ok.inj hok).symm
      subst hs
      intro d hd
      rw [deploy_model_preserves hres (by decide)] at hd
      exact hst d hd
  | generate r =>
    simp only [dispatch] at hok
    cases hdb : s.dbOk with
    | false =>
      rw [generate_model_notConfigured r s hdb] at hok
      simp [Except.map] at hok
    | true =>
      cases hname : validName (modelName r) with
      | false =>
        rw [generate_model_invalidName r s hdb hname] at hok
        simp [Except.map] at hok
      | true =>
        obtain ⟨s₂, hrun, _, hgj, _⟩ := generate_model_run r s hdb hname
        rw [hrun] at hok
        simp only [Except.map] at hok
        have hs : s' = s₂ := (Except.ok.inj hok).symm
        subst hs
        intro d hd
        rw [hgj] at hd
        rcases mem_updateById hd with hmem | ⟨d₀, _, rfl⟩
        · rcases List.mem_append.mp hmem with hold | hnew
          · exact hst d hold
          · rw [List.mem_singleton] at hnew
            subst hnew
            exact Or.inl (by simp [jobDoc, getField])
        · exact Or.inr (getField_completeJob_status _ _)

/-- C8 witness: the creation status, a concrete completed run on the
empty store, and invariant preservation across a request. -/
theorem c8_job_single_transition_witness :
    getField "status" (jobDoc "p") = some (.vStr "running") ∧
    (∃ s' r, generate_model ⟨"p", none⟩ emptyStore = .ok (s', r) ∧
      ∃ j, findById s' "generationjob" r.job_id = some j ∧
        getField "status" j = some (.vStr "completed") ∧
        getField "model_id" j = some (.vStr r.model_id)) ∧
    jobStatusOk emptyStore :=
  ⟨c8_job_single_transition.1 "p",
   c8_job_single_transition.2.1 ⟨"p", none⟩ emptyStore rfl rfl rfl,
   c8_job_single_transition.2.2 .root emptyStore emptyStore
     (fun d hd => absurd hd (List.not_mem_nil d)) rfl⟩

end AIPlatform
